import Mathlib

/-!
Verification of the Strava/Fitbit dashboard script (`newscript.py`).

The script loads eight CSV tables (memoized with `st.cache_data`), shows a
five-way navigation radio, and renders one of five views per pass.  This file
gives a shallow embedding of its data model and of the five view renderers,
and proves the testable properties stated in the specification.

Modelling conventions:
* A parsed timestamp (`pd.to_datetime` result) is an integer number of seconds
  since an epoch; its calendar-date component (`.dt.date`) is the floor
  division by 86400 and its hour-of-day component (`.dt.hour`) is derived from
  the remainder.
* Numeric measure columns are exact rationals (`ℚ`); a Pearson correlation
  value, which needs a square root, lives in `ℝ` with pandas' NaN outcome
  (zero denominator or too few observations) modelled as `none`.
* A DataFrame is a list of typed row structures, in row order.
* Each Streamlit display call is recorded as one `RenderCmd`; a view renderer
  is the list of commands it issues, in program order.
-/

namespace Newscript

/-- A parsed timestamp: seconds since an epoch. -/
abbrev Timestamp := Int

/-- Calendar-date component of a timestamp (pandas `.dt.date`), as a day
ordinal: floor division by 86400 seconds.  `Int` division is Euclidean, which
is floor division for the positive divisor 86400. -/
def dateOf (t : Timestamp) : Int := t / 86400

/-- Hour-of-day component of a timestamp (pandas `.dt.hour`): the
seconds-within-day remainder divided by 3600.  Always in `0..23`. -/
def hourOf (t : Timestamp) : Nat := ((t % 86400) / 3600).toNat

/-- One row of `dailyActivity_merged.csv` after date parsing (the columns the
script reads). -/
structure ActivityRow where
  ActivityDate : Timestamp
  TotalSteps : ℚ
  TotalDistance : ℚ
  Calories : ℚ
  VeryActiveMinutes : ℚ
  FairlyActiveMinutes : ℚ
  LightlyActiveMinutes : ℚ
  SedentaryMinutes : ℚ
  deriving DecidableEq

/-- One row of `dailyCalories_merged.csv` after date parsing. -/
structure CaloriesRow where
  ActivityDay : Timestamp
  Calories : ℚ
  deriving DecidableEq

/-- One row of `dailyIntensities_merged.csv` after date parsing
(activity-intensity minute buckets). -/
structure IntensitiesRow where
  ActivityDay : Timestamp
  SedentaryMinutes : ℚ
  LightlyActiveMinutes : ℚ
  FairlyActiveMinutes : ℚ
  VeryActiveMinutes : ℚ
  deriving DecidableEq

/-- One row of `dailySteps_merged.csv` after date parsing. -/
structure StepsRow where
  ActivityDay : Timestamp
  StepTotal : ℚ
  deriving DecidableEq

/-- One row of `sleepDay_merged.csv` after date parsing. -/
structure SleepRow where
  SleepDay : Timestamp
  TotalMinutesAsleep : ℚ
  deriving DecidableEq

/-- One row of `heartrate_seconds_merged.csv` after date parsing. -/
structure HeartRow where
  Time : Timestamp
  Value : ℚ
  deriving DecidableEq

/-- One row of `hourlySteps_merged.csv` after date parsing. -/
structure HourlyRow where
  ActivityHour : Timestamp
  StepTotal : ℚ
  deriving DecidableEq

/-- One row of `weightLogInfo_merged.csv` after date parsing (the columns the
script reads). -/
structure WeightRow where
  Date : Timestamp
  WeightKg : ℚ
  BMI : ℚ
  deriving DecidableEq

instance : Inhabited WeightRow := ⟨⟨0, 0, 0⟩⟩

/-- The eight parsed tables, in the order `load_data` returns them. -/
structure Tables where
  daily_activity : List ActivityRow
  daily_calories : List CaloriesRow
  daily_intensities : List IntensitiesRow
  daily_steps : List StepsRow
  sleep_day : List SleepRow
  heartrate : List HeartRow
  hourly_steps : List HourlyRow
  weight : List WeightRow
  deriving DecidableEq

/-! ### The data loader under `st.cache_data` -/

/-- State of the `st.cache_data` cache for the argument-free `load_data`:
the stored value if the body has run, how many times the body has run (each
run is one pass reading the eight CSV files), and a counter of fresh object
identities handed out to callers. -/
structure CacheState where
  stored : Option Tables
  fileReads : Nat
  nextObjId : Nat
  deriving DecidableEq

/-- The cache before any call. -/
def initCache : CacheState := ⟨none, 0, 0⟩

/-- What one call to `load_data` hands back: the tuple of eight tables, plus
the identity of the returned object graph.  Two returns with distinct `objId`
are distinct objects even when their `tables` are equal. -/
structure LoadReturn where
  tables : Tables
  objId : Nat
  deriving DecidableEq

/-- The `@st.cache_data`-decorated `load_data`.  `files` stands for the parsed
contents of the eight CSV inputs (reading plus `pd.to_datetime` on the
designated column of each table).  On a cache miss the body runs — one pass
over the input files, counted in `fileReads` — and the result is stored.  On
every call, hit or miss alike, `st.cache_data` returns a fresh
pickle-round-trip copy of the stored value (per the Streamlit documentation,
each caller gets its own copy of the cached data), modelled by handing out a
fresh `objId`. -/
def load_data (files : Tables) (s : CacheState) : LoadReturn × CacheState :=
  match s.stored with
  | none =>
      ({ tables := files, objId := s.nextObjId },
       { stored := some files, fileReads := s.fileReads + 1,
         nextObjId := s.nextObjId + 1 })
  | some t =>
      ({ tables := t, objId := s.nextObjId },
       { s with nextObjId := s.nextObjId + 1 })

/-! ### Statistics helpers (pandas `mean` and `corr`) -/

/-- Arithmetic mean of a column, `sum / count` (pandas `mean`). -/
def mean (xs : List ℚ) : ℚ := xs.sum / (xs.length : ℚ)

/-- Sum of squared deviations from the mean of a column. -/
def centeredSq (xs : List ℚ) : ℚ :=
  (xs.map (fun a => (a - mean xs) * (a - mean xs))).sum

/-- Sum of products of paired deviations from the column means. -/
def centeredProd (xs ys : List ℚ) : ℚ :=
  (List.zipWith (fun a b => (a - mean xs) * (b - mean ys)) xs ys).sum

/-- One entry of a pandas Pearson correlation matrix for the column pair
`(xs, ys)`: covariance over the product of standard deviations (the `ddof`
factors cancel).  pandas produces NaN — modelled as `none` — exactly when the
denominator is zero, which happens when either column is constant or the
table has fewer than two rows. -/
noncomputable def corrEntry (xs ys : List ℚ) : Option ℝ :=
  let denom : ℝ :=
    Real.sqrt ((centeredSq xs : ℚ) : ℝ) * Real.sqrt ((centeredSq ys : ℚ) : ℝ)
  if denom = 0 then none
  else some (((centeredProd xs ys : ℚ) : ℝ) / denom)

/-- The seven Daily Activity metric columns selected for the correlation
matrix, in the order the script lists them. -/
def activityCols : List (ActivityRow → ℚ) :=
  [fun r => r.TotalSteps, fun r => r.TotalDistance, fun r => r.Calories,
   fun r => r.VeryActiveMinutes, fun r => r.FairlyActiveMinutes,
   fun r => r.LightlyActiveMinutes, fun r => r.SedentaryMinutes]

/-- The 7×7 pairwise Pearson correlation matrix computed by
`daily_activity[[...]].corr()`. -/
noncomputable def corrMatrix (da : List ActivityRow) :
    Fin 7 → Fin 7 → Option ℝ :=
  fun i j => corrEntry (da.map (activityCols.get i)) (da.map (activityCols.get j))

/-! ### Render commands -/

/-- One Streamlit display call.  Chart commands carry the exact data series
handed to Plotly; `metricW` carries the one-decimal-rounded value shown by
`st.metric`. -/
inductive RenderCmd where
  | pageConfig (pageTitle : String)
  | pageTitle (t : String)
  | markdownText (t : String)
  | sidebarRadio (label : String) (options : List String)
  | header (t : String)
  | subheader (t : String)
  | lineChartT (t : String) (points : List (Timestamp × ℚ))
  | scatterChart (t : String) (points : List (ℚ × ℚ))
  | histChart (t : String) (nbins : Nat) (values : List ℚ)
  | barChart (t : String) (bars : List (Nat × ℚ))
  | corrTable (m : Fin 7 → Fin 7 → Option ℝ)
  | selectboxDate (label : String) (options : List Int) (selected : Int)
  | metricW (label : String) (value : ℚ)
  | warning (msg : String)

/-- Whether a command is one of the four Plotly chart renders
(`st.plotly_chart`). -/
def isChartCmd : RenderCmd → Bool
  | RenderCmd.lineChartT _ _ => true
  | RenderCmd.scatterChart _ _ => true
  | RenderCmd.histChart _ _ _ => true
  | RenderCmd.barChart _ _ => true
  | _ => false

/-- Whether a command is a metric widget (`st.metric`). -/
def isMetricCmd : RenderCmd → Bool
  | RenderCmd.metricW _ _ => true
  | _ => false

/-- Whether a command is a warning notice (`st.warning`). -/
def isWarningCmd : RenderCmd → Bool
  | RenderCmd.warning _ => true
  | _ => false

/-! ### The five view renderers -/

/-- The Daily Activity view: steps-over-time line chart, steps-vs-calories
scatter with OLS trend, and the correlation matrix table. -/
noncomputable def dailyActivityView (da : List ActivityRow) : List RenderCmd :=
  [RenderCmd.header "📅 Daily Activity Overview",
   RenderCmd.lineChartT "Daily Steps Over Time"
     (da.map (fun r => (r.ActivityDate, r.TotalSteps))),
   RenderCmd.scatterChart "Steps vs Calories Burned"
     (da.map (fun r => (r.TotalSteps, r.Calories))),
   RenderCmd.subheader "Correlation between Activity Metrics",
   RenderCmd.corrTable (corrMatrix da)]

/-- A Sleep Day row after the Sleep Analysis view assigns the derived
`SleepHours` column. -/
structure SleepRowH where
  SleepDay : Timestamp
  TotalMinutesAsleep : ℚ
  SleepHours : ℚ
  deriving DecidableEq

/-- The column assignment `sleep_day["SleepHours"] = sleep_day["TotalMinutesAsleep"] / 60`
on one row. -/
def addSleepHours (r : SleepRow) : SleepRowH :=
  ⟨r.SleepDay, r.TotalMinutesAsleep, r.TotalMinutesAsleep / 60⟩

/-- The Sleep Day table after the `SleepHours` assignment. -/
def deriveSleepHours (s : List SleepRow) : List SleepRowH :=
  s.map addSleepHours

/-- The inner join
`pd.merge(sleep_day, daily_activity, left_on="SleepDay", right_on="ActivityDate", how="inner")`:
every pairing of a sleep row with an activity row whose dates coincide; rows
with no date match on either side contribute nothing. -/
def sleepActivityMerge (s : List SleepRowH) (da : List ActivityRow) :
    List (SleepRowH × ActivityRow) :=
  s.flatMap (fun l =>
    (da.filter (fun r => decide (r.ActivityDate = l.SleepDay))).map (fun r => (l, r)))

/-- The Sleep Analysis view: derive `SleepHours`, histogram it, then scatter
the sleep-activity join's `SleepHours` against `TotalSteps`. -/
def sleepView (sleep : List SleepRow) (da : List ActivityRow) : List RenderCmd :=
  [RenderCmd.header "😴 Sleep Patterns",
   RenderCmd.histChart "Distribution of Sleep Hours" 20
     ((deriveSleepHours sleep).map (fun r => r.SleepHours)),
   RenderCmd.scatterChart "Sleep Duration vs Daily Steps"
     ((sleepActivityMerge (deriveSleepHours sleep) da).map
       (fun p => (p.1.SleepHours, p.2.TotalSteps)))]

/-- The `StepTotal` column of the rows falling in hour bucket `h`. -/
def stepsAtHour (hs : List HourlyRow) (h : Nat) : List ℚ :=
  (hs.filter (fun r => decide (hourOf r.ActivityHour = h))).map (fun r => r.StepTotal)

/-- `hourly_steps.groupby("Hour")["StepTotal"].mean().reset_index()`:
one bucket per distinct `Hour` value present in the table, in increasing hour
order (pandas `groupby` sorts the keys), carrying the bucket's mean
`StepTotal`.  Since every `Hour` value lies in `0..23`, scanning
`List.range 24` for inhabited buckets enumerates exactly the distinct keys in
ascending order. -/
def groupMeans (hs : List HourlyRow) : List (Nat × ℚ) :=
  ((List.range 24).filter
      (fun h => hs.any (fun r => decide (hourOf r.ActivityHour = h)))).map
    (fun h => (h, mean (stepsAtHour hs h)))

/-- The Hourly Patterns view: derive `Hour`, group-average `StepTotal`, and
render the bar chart. -/
def hourlyView (hs : List HourlyRow) : List RenderCmd :=
  [RenderCmd.header "⏰ Hourly Activity Trends",
   RenderCmd.barChart "Average Steps by Hour of Day" (groupMeans hs)]

/-- `heartrate["Time"].dt.date.unique()`: the distinct calendar dates of the
heart-rate timestamps, in first-occurrence order (pandas `unique`). -/
def availableDates (hr : List HeartRow) : List Int :=
  (hr.map (fun r => dateOf r.Time)).foldl
    (fun acc d => if d ∈ acc then acc else acc ++ [d]) []

/-- The date filter `heartrate[heartrate["Time"].dt.date == selected_date]`. -/
def hrFilter (hr : List HeartRow) (d : Int) : List HeartRow :=
  hr.filter (fun r => decide (dateOf r.Time = d))

/-- The Heart Rate view: date selectbox over the distinct dates, then a line
chart of `Value` over `Time` for the selected date's rows, the date in the
title. -/
def heartView (hr : List HeartRow) (selectedDate : Int) : List RenderCmd :=
  [RenderCmd.header "❤️ Heart Rate Analysis",
   RenderCmd.selectboxDate "Choose a date" (availableDates hr) selectedDate,
   RenderCmd.lineChartT ("Heart Rate Throughout " ++ toString selectedDate)
     ((hrFilter hr selectedDate).map (fun r => (r.Time, r.Value)))]

/-- One-decimal display rounding, modelling the Python format spec `.1f` used
by the two `st.metric` calls (ties rounded by Mathlib's `round`; the float
formatter resolves exact ties to even, a case none of the spec's inputs
exercises). -/
def fmt1 (q : ℚ) : ℚ := ((round (q * 10) : ℤ) : ℚ) / 10

/-- The date-descending comparison `sort_values("Date", ascending=False)`
sorts by. -/
def dateGE (a b : WeightRow) : Prop := b.Date ≤ a.Date

instance : DecidableRel dateGE := fun a b => Int.decLe b.Date a.Date

instance : IsTotal WeightRow dateGE := ⟨fun a b => le_total b.Date a.Date⟩

instance : IsTrans WeightRow dateGE := ⟨fun _ _ _ hab hbc => le_trans hbc hab⟩

/-- `weight.sort_values("Date", ascending=False)`: sort rows by `Date`
descending (pandas' quicksort is unstable, so any date-descending ordering is
a faithful model; insertion sort is used here). -/
def sortByDateDesc (w : List WeightRow) : List WeightRow :=
  w.insertionSort dateGE

/-- The Weight Log view.  Empty table: a warning notice only.  Otherwise: the
weight and BMI line charts, then the two latest-row metrics — row 0 of the
date-descending sort (`.iloc[0]`), each value displayed to one decimal. -/
def weightView (w : List WeightRow) : List RenderCmd :=
  RenderCmd.header "⚖️ Weight & BMI Trends" ::
  (if w.isEmpty then
    [RenderCmd.warning "No weight log data available."]
  else
    [RenderCmd.lineChartT "Weight Trend Over Time"
       (w.map (fun r => (r.Date, r.WeightKg))),
     RenderCmd.lineChartT "BMI Trend Over Time"
       (w.map (fun r => (r.Date, r.BMI))),
     RenderCmd.metricW "Latest Weight (kg)"
       (fmt1 ((sortByDateDesc w).headI.WeightKg)),
     RenderCmd.metricW "Latest BMI"
       (fmt1 ((sortByDateDesc w).headI.BMI))])

/-! ### Navigation and dispatch -/

/-- The five sidebar options, as an enumeration. -/
inductive Menu where
  | dailyActivity
  | sleepAnalysis
  | hourlyPatterns
  | heartRate
  | weightLog
  deriving DecidableEq

/-- The sidebar radio's option labels, in order. -/
def menuOptions : List String :=
  ["Daily Activity", "Sleep Analysis", "Hourly Patterns", "Heart Rate", "Weight Log"]

/-- One full top-to-bottom render pass of the script: page chrome, the
navigation radio, then exactly the branch the current selection picks.
`heartDate` is the Heart Rate view's selectbox state (only that branch reads
it). -/
noncomputable def render (t : Tables) (menu : Menu) (heartDate : Int) :
    List RenderCmd :=
  [RenderCmd.pageConfig "Fitbit Dashboard",
   RenderCmd.pageTitle "📊 Strava Fitness Dashboard",
   RenderCmd.markdownText
     "Analyze your activity, sleep, calories, weight, and heart rate data interactively.",
   RenderCmd.sidebarRadio "Select Analysis" menuOptions] ++
  (match menu with
   | Menu.dailyActivity => dailyActivityView t.daily_activity
   | Menu.sleepAnalysis => sleepView t.sleep_day t.daily_activity
   | Menu.hourlyPatterns => hourlyView t.hourly_steps
   | Menu.heartRate => heartView t.heartrate heartDate
   | Menu.weightLog => weightView t.weight)

/-! ### Concrete tables used by witnesses and counterexamples -/

/-- Two sleep rows sharing one date — a duplicate join key on the left. -/
def c1Sleep : List SleepRow := [⟨0, 60⟩, ⟨0, 120⟩]

/-- Two activity rows sharing that date — a duplicate join key on the right. -/
def c1Act : List ActivityRow :=
  [⟨0, 1000, 1, 100, 1, 1, 1, 1⟩, ⟨0, 2000, 2, 200, 1, 1, 1, 1⟩]

/-- Sleep rows with pairwise-distinct dates. -/
def w1Sleep : List SleepRow := [⟨0, 60⟩, ⟨86400, 120⟩]

/-- One activity row, its date distinct. -/
def w1Act : List ActivityRow := [⟨0, 1000, 1, 100, 1, 1, 1, 1⟩]

/-- Concrete parsed file contents (all tables empty) for exercising the
loader cache. -/
def c2Files : Tables := ⟨[], [], [], [], [], [], [], []⟩

/-- The spec's Weight Log example: 2024-01-01 (70.0 kg, BMI 22.0) and
2024-01-03 (69.5 kg, BMI 21.8), dates as day ordinals. -/
def c3W : List WeightRow := [⟨20240101, 70, 22⟩, ⟨20240103, 695/10, 218/10⟩]

/-- One heart-rate sample 100 seconds into day 5. -/
def w5Row : HeartRow := ⟨86400 * 5 + 100, 70⟩

/-- A heart-rate table whose only sample lies on day 5. -/
def w5HR : List HeartRow := [w5Row]

/-- A one-row sleep table (120 minutes asleep). -/
def w6S : List SleepRow := [⟨0, 120⟩]

/-- An hourly-steps table whose only row falls in hour 5. -/
def c7HS : List HourlyRow := [⟨3600 * 5, 300⟩]

/-- Another hourly-steps table with a single hour-5 row. -/
def w7HS : List HourlyRow := [⟨3600 * 5 + 60, 300⟩]

/-- An hourly-steps table with a single hour-2 row of 100 steps. -/
def w8HS : List HourlyRow := [⟨3600 * 2, 100⟩]

/-- Two activity rows whose TotalSteps differ, so that column has nonzero
variance. -/
def w9DA : List ActivityRow :=
  [⟨0, 0, 0, 0, 0, 0, 0, 0⟩, ⟨86400, 2, 2, 2, 2, 2, 2, 2⟩]

/-- A single-row activity table: every column is constant, variance zero. -/
def c9DA : List ActivityRow := [⟨0, 5, 3, 2000, 10, 20, 30, 600⟩]

/-- Loaded tables with the three renderer-unread tables empty. -/
def w10a : Tables := ⟨[], [], [], [], [], [], [], []⟩

/-- The same tables except Daily Calories, Daily Intensities and Daily Steps
are non-empty. -/
def w10b : Tables :=
  ⟨[], [⟨0, 100⟩], [⟨0, 1, 2, 3, 4⟩], [⟨0, 50⟩], [], [], [], []⟩

/-! ### Helper lemmas -/

theorem hourOf_lt_24 (t : Timestamp) : hourOf t < 24 := by
  have h1 : 0 ≤ t % 86400 := Int.emod_nonneg t (by norm_num)
  have h2 : t % 86400 < 86400 := Int.emod_lt_of_pos t (by norm_num)
  unfold hourOf
  omega

theorem filter_key_length_le_one {α : Type} (key : α → Int) (d : Int) :
    ∀ l : List α, (l.map key).Nodup →
      (l.filter (fun r => decide (key r = d))).length ≤ 1 := by
  intro l
  induction l with
  | nil => intro _; simp
  | cons a l ih =>
    intro hnd
    rw [List.map_cons, List.nodup_cons] at hnd
    by_cases hd : key a = d
    · rw [List.filter_cons_of_pos (by simpa using hd)]
      have hnil : List.filter (fun r => decide (key r = d)) l = [] := by
        rw [List.filter_eq_nil_iff]
        intro b hb hkb
        have hkb2 : key b = d := by simpa using hkb
        exact hnd.1 (List.mem_map.mpr ⟨b, hb, by rw [hkb2, hd]⟩)
      simp [hnil]
    · rw [List.filter_cons_of_neg (by simpa using hd)]
      exact ih hnd.2

theorem sum_filter_key_length_le {α : Type} (key : α → Int) :
    ∀ ds : List Int, ds.Nodup → ∀ l : List α,
      (ds.map (fun d => (l.filter (fun r => decide (key r = d))).length)).sum ≤
        l.length := by
  intro ds
  induction ds with
  | nil => intro _ l; simp
  | cons d ds ih =>
    intro hnd l
    rw [List.nodup_cons] at hnd
    rw [List.map_cons, List.sum_cons]
    have hcongr : ∀ d2 ∈ ds,
        (l.filter (fun r => decide (key r = d2))).length =
          ((l.filter (fun r => !decide (key r = d))).filter
            (fun r => decide (key r = d2))).length := by
      intro d2 hd2
      have hdd : d2 ≠ d := fun h => hnd.1 (h ▸ hd2)
      rw [List.filter_filter]
      congr 1
      apply List.filter_congr
      intro b _
      by_cases hb : key b = d2
      · have hbd : ¬ key b = d := by rw [hb]; exact hdd
        simp [hb, hbd, hdd]
      · simp [hb]
    calc (l.filter (fun r => decide (key r = d))).length +
          (ds.map fun d2 => (l.filter (fun r => decide (key r = d2))).length).sum
        = (l.filter (fun r => decide (key r = d))).length +
          (ds.map fun d2 => ((l.filter (fun r => !decide (key r = d))).filter
              (fun r => decide (key r = d2))).length).sum := by
          rw [List.map_congr_left hcongr]
      _ ≤ (l.filter (fun r => decide (key r = d))).length +
          (l.filter (fun r => !decide (key r = d))).length :=
          Nat.add_le_add_left (ih hnd.2 _) _
      _ = l.length := (List.length_eq_length_filter_add _).symm

theorem le_mean_of_forall_le (xs : List ℚ) (hne : xs ≠ []) (lo : ℚ)
    (hb : ∀ x ∈ xs, lo ≤ x) : lo ≤ mean xs := by
  have hlen : (0:ℚ) < (xs.length : ℚ) := by
    exact_mod_cast List.length_pos.mpr hne
  rw [mean, le_div_iff₀ hlen]
  calc lo * (xs.length : ℚ) = (xs.length : ℚ) * lo := mul_comm _ _
    _ = xs.length • lo := (nsmul_eq_mul _ _).symm
    _ ≤ xs.sum := List.card_nsmul_le_sum xs lo hb

theorem mean_le_of_forall_le (xs : List ℚ) (hne : xs ≠ []) (hi : ℚ)
    (hb : ∀ x ∈ xs, x ≤ hi) : mean xs ≤ hi := by
  have hlen : (0:ℚ) < (xs.length : ℚ) := by
    exact_mod_cast List.length_pos.mpr hne
  rw [mean, div_le_iff₀ hlen]
  calc xs.sum ≤ xs.length • hi := List.sum_le_card_nsmul xs hi hb
    _ = (xs.length : ℚ) * hi := nsmul_eq_mul _ _
    _ = hi * (xs.length : ℚ) := mul_comm _ _

theorem min?_spec {l : List ℚ} {a : ℚ} (h : l.min? = some a) :
    a ∈ l ∧ ∀ b ∈ l, a ≤ b := by
  haveI : Std.Antisymm (fun x1 x2 : ℚ => x1 ≤ x2) := ⟨fun h1 h2 => le_antisymm h1 h2⟩
  exact (List.min?_eq_some_iff (fun _ => le_refl _) min_choice
    (fun _ _ _ => le_min_iff)).mp h

theorem max?_spec {l : List ℚ} {a : ℚ} (h : l.max? = some a) :
    a ∈ l ∧ ∀ b ∈ l, b ≤ a := by
  haveI : Std.Antisymm (fun x1 x2 : ℚ => x1 ≤ x2) := ⟨fun h1 h2 => le_antisymm h1 h2⟩
  exact (List.max?_eq_some_iff (fun _ => le_refl _) max_choice
    (fun _ _ _ => max_le_iff)).mp h

theorem centeredProd_self (xs : List ℚ) : centeredProd xs xs = centeredSq xs := by
  rw [centeredProd, centeredSq, List.zipWith_same]

theorem centeredSq_nonneg (xs : List ℚ) : 0 ≤ centeredSq xs := by
  apply List.sum_nonneg
  intro x hx
  rw [List.mem_map] at hx
  obtain ⟨a, _, rfl⟩ := hx
  exact mul_self_nonneg _

/-! ### Claim C1 -/

/-- Claim C1 (amended): every row of the Sleep×Activity inner join has its
SleepDay equal to its ActivityDate, unconditionally; and — provided the join
keys are pairwise distinct within each table — the join's row count is at
most min(|Sleep Day|, |Daily Activity|).  (The distinctness proviso guards
only the count bound, which without it fails: with duplicated dates on both
sides the inner join forms a per-date cross product, see the
counterexample.) -/
theorem sleep_activity_join_spec (sleep : List SleepRow) (da : List ActivityRow) :
    (∀ p ∈ sleepActivityMerge (deriveSleepHours sleep) da,
      p.1.SleepDay = p.2.ActivityDate) ∧
    ((sleep.map (fun r => r.SleepDay)).Nodup →
      (da.map (fun r => r.ActivityDate)).Nodup →
      (sleepActivityMerge (deriveSleepHours sleep) da).length ≤
        min sleep.length da.length) := by
  constructor
  · intro p hp
    rw [sleepActivityMerge, List.mem_flatMap] at hp
    obtain ⟨l, _, hp2⟩ := hp
    rw [List.mem_map] at hp2
    obtain ⟨r, hr, rfl⟩ := hp2
    rw [List.mem_filter] at hr
    have h2 := hr.2
    simp only [decide_eq_true_eq] at h2
    exact h2.symm
  · intro hs hda
    rw [Nat.le_min]
    constructor
    · rw [sleepActivityMerge, List.length_flatMap]
      have hb : ∀ n ∈ (deriveSleepHours sleep).map
          (List.length ∘ fun l =>
            (da.filter (fun r => decide (r.ActivityDate = l.SleepDay))).map
              (fun r => (l, r))), n ≤ 1 := by
        intro n hn
        rw [List.mem_map] at hn
        obtain ⟨l, _, rfl⟩ := hn
        simp only [Function.comp_apply, List.length_map]
        exact filter_key_length_le_one (fun r => r.ActivityDate) l.SleepDay da hda
      calc ((deriveSleepHours sleep).map
            (List.length ∘ fun l =>
              (da.filter (fun r => decide (r.ActivityDate = l.SleepDay))).map
                (fun r => (l, r)))).sum
          ≤ ((deriveSleepHours sleep).map
              (List.length ∘ fun l =>
                (da.filter (fun r => decide (r.ActivityDate = l.SleepDay))).map
                  (fun r => (l, r)))).length • 1 :=
            List.sum_le_card_nsmul _ 1 hb
        _ = sleep.length := by simp [deriveSleepHours]
    · rw [sleepActivityMerge, List.length_flatMap]
      have key : ((deriveSleepHours sleep).map
          (List.length ∘ fun l =>
            (da.filter (fun r => decide (r.ActivityDate = l.SleepDay))).map
              (fun r => (l, r)))).sum
          = ((sleep.map (fun r => r.SleepDay)).map
              (fun d => (da.filter (fun r => decide (r.ActivityDate = d))).length)).sum := by
        simp [deriveSleepHours, List.map_map, Function.comp_def, addSleepHours]
      rw [key]
      exact sum_filter_key_length_le (fun r => r.ActivityDate) _ hs da

/-- Claim C1 counterexample: with the date duplicated on both sides (two
sleep rows and two activity rows on day 0) the inner join has 4 rows, more
than min(2, 2) = 2 — the claimed count bound is false as stated. -/
theorem sleep_activity_join_counterexample :
    ¬ ((sleepActivityMerge (deriveSleepHours c1Sleep) c1Act).length ≤
       min c1Sleep.length c1Act.length) := by decide

/-- Claim C1 witness: at a concrete pair of tables with distinct dates on
each side, the amended count bound holds, and the key-equality conjunct
applied to a concrete row of the join — and also to a row of the
duplicate-key counterexample tables, where equality still holds
unconditionally. -/
theorem sleep_activity_join_spec_witness :
    (sleepActivityMerge (deriveSleepHours w1Sleep) w1Act).length ≤
      min w1Sleep.length w1Act.length ∧
    (addSleepHours ⟨0, 60⟩,
      (⟨0, 1000, 1, 100, 1, 1, 1, 1⟩ : ActivityRow)).1.SleepDay =
      (addSleepHours ⟨0, 60⟩,
        (⟨0, 1000, 1, 100, 1, 1, 1, 1⟩ : ActivityRow)).2.ActivityDate ∧
    (addSleepHours ⟨0, 120⟩,
      (⟨0, 2000, 2, 200, 1, 1, 1, 1⟩ : ActivityRow)).1.SleepDay =
      (addSleepHours ⟨0, 120⟩,
        (⟨0, 2000, 2, 200, 1, 1, 1, 1⟩ : ActivityRow)).2.ActivityDate :=
  ⟨(sleep_activity_join_spec w1Sleep w1Act).2 (by decide) (by decide),
   (sleep_activity_join_spec w1Sleep w1Act).1 _
     (by simp [sleepActivityMerge, deriveSleepHours, addSleepHours, w1Sleep, w1Act]),
   (sleep_activity_join_spec c1Sleep c1Act).1 _
     (by simp [sleepActivityMerge, deriveSleepHours, addSleepHours, c1Sleep, c1Act])⟩

/-! ### Claim C2 -/

/-- Claim C2 (amended): calling the loader a second time in the same process
returns tables equal to the first call's without re-reading any input (the
body runs exactly once), but the two returns are distinct objects — under
st.cache_data each call hands back a fresh copy of the cached value, so the
results are equal, not reference-identical. -/
theorem load_data_cached (files : Tables) :
    (load_data files (load_data files initCache).2).1.tables =
        (load_data files initCache).1.tables ∧
    (load_data files initCache).2.fileReads = 1 ∧
    (load_data files (load_data files initCache).2).2.fileReads = 1 ∧
    (load_data files (load_data files initCache).2).1.objId ≠
        (load_data files initCache).1.objId := by
  simp [load_data, initCache]

/-- Claim C2 counterexample: at concrete file contents, the second call's
return has a different object identity from the first call's even though the
table values are equal — refuting reference identity as claimed. -/
theorem load_data_cached_counterexample :
    (load_data c2Files (load_data c2Files initCache).2).1.objId ≠
      (load_data c2Files initCache).1.objId ∧
    (load_data c2Files (load_data c2Files initCache).2).1.tables =
      (load_data c2Files initCache).1.tables := by decide

/-- Claim C2 witness: value equality of the two returns at concrete file
contents. -/
theorem load_data_cached_witness :
    (load_data c2Files (load_data c2Files initCache).2).1.tables =
      (load_data c2Files initCache).1.tables :=
  (load_data_cached c2Files).1

/-! ### Claim C3 -/

/-- Claim C3: for a non-empty Weight Log (here: whenever the date-descending
sort has a first row), that first row has the maximal date, and the view
renders the two charts followed by exactly two metric widgets showing that
row's WeightKg and BMI rounded to one decimal place. -/
theorem weight_latest_metrics (w : List WeightRow) (latest : WeightRow)
    (h : (sortByDateDesc w).head? = some latest) :
    (∀ r ∈ w, r.Date ≤ latest.Date) ∧
    weightView w =
      [RenderCmd.header "⚖️ Weight & BMI Trends",
       RenderCmd.lineChartT "Weight Trend Over Time"
         (w.map (fun r => (r.Date, r.WeightKg))),
       RenderCmd.lineChartT "BMI Trend Over Time"
         (w.map (fun r => (r.Date, r.BMI))),
       RenderCmd.metricW "Latest Weight (kg)" (fmt1 latest.WeightKg),
       RenderCmd.metricW "Latest BMI" (fmt1 latest.BMI)] := by
  obtain ⟨tail, htail⟩ : ∃ tail, sortByDateDesc w = latest :: tail := by
    cases hl : sortByDateDesc w with
    | nil => rw [hl] at h; exact absurd h (by simp)
    | cons a t =>
      rw [hl] at h
      simp only [List.head?_cons, Option.some.injEq] at h
      exact ⟨t, by rw [h]⟩
  have hperm : (sortByDateDesc w).Perm w := List.perm_insertionSort dateGE w
  have hne : w ≠ [] := by
    intro h0
    rw [h0] at htail
    simp [sortByDateDesc, List.insertionSort] at htail
  have hsorted : List.Sorted dateGE (sortByDateDesc w) :=
    List.sorted_insertionSort dateGE w
  rw [htail] at hsorted
  rw [List.sorted_cons] at hsorted
  constructor
  · intro r hrw
    have hrs : r ∈ latest :: tail := by
      rw [← htail]
      exact hperm.symm.subset hrw
    rcases List.mem_cons.mp hrs with hcase | hcase
    · rw [hcase]
    · exact hsorted.1 r hcase
  · rw [weightView]
    have hempty : w.isEmpty = false := by
      cases w
      · exact absurd rfl hne
      · rfl
    rw [hempty]
    simp only [Bool.false_eq_true, if_false]
    rw [htail]
    rfl

/-- Claim C3 witness: the spec's example — rows dated 2024-01-01
(70.0 kg, BMI 22.0) and 2024-01-03 (69.5 kg, BMI 21.8) — displays latest
metrics 69.5 and 21.8. -/
theorem weight_latest_metrics_witness :
    (∀ r ∈ c3W, r.Date ≤ 20240103) ∧
    weightView c3W =
      [RenderCmd.header "⚖️ Weight & BMI Trends",
       RenderCmd.lineChartT "Weight Trend Over Time"
         [(20240101, 70), (20240103, 695/10)],
       RenderCmd.lineChartT "BMI Trend Over Time"
         [(20240101, 22), (20240103, 218/10)],
       RenderCmd.metricW "Latest Weight (kg)" (695/10),
       RenderCmd.metricW "Latest BMI" (218/10)] := by
  have hh : (sortByDateDesc c3W).head? = some ⟨20240103, 695/10, 218/10⟩ := by
    simp [sortByDateDesc, c3W, List.insertionSort, List.orderedInsert, dateGE]
  have h := weight_latest_metrics c3W ⟨20240103, 695/10, 218/10⟩ hh
  refine ⟨fun r hr => h.1 r hr, ?_⟩
  rw [h.2]
  have e1 : fmt1 ((⟨20240103, 695/10, 218/10⟩ : WeightRow).WeightKg) = 695/10 := by
    show fmt1 (695/10) = 695/10
    have hq : ((695:ℚ)/10) * 10 = ((695:ℤ):ℚ) := by norm_num
    rw [fmt1, hq, round_intCast]
    norm_num
  have e2 : fmt1 ((⟨20240103, 695/10, 218/10⟩ : WeightRow).BMI) = 218/10 := by
    show fmt1 (218/10) = 218/10
    have hq : ((218:ℚ)/10) * 10 = ((218:ℤ):ℚ) := by norm_num
    rw [fmt1, hq, round_intCast]
    norm_num
  rw [e1, e2]
  simp [c3W]

/-! ### Claim C4 -/

/-- Claim C4: on the empty Weight Log table, the view renders exactly its
header plus one warning notice with the script's message, and issues zero
chart renders and zero metric widgets. -/
theorem weight_empty_view :
    weightView ([] : List WeightRow) =
      [RenderCmd.header "⚖️ Weight & BMI Trends",
       RenderCmd.warning "No weight log data available."] ∧
    (weightView []).countP isChartCmd = 0 ∧
    (weightView []).countP isMetricCmd = 0 ∧
    (weightView []).countP isWarningCmd = 1 :=
  ⟨rfl, rfl, rfl, rfl⟩

/-! ### Claim C5 -/

/-- Claim C5: if the selected date occurs as the date component of at least
one heart-rate timestamp, the Heart Rate view's filter is non-empty and every
row it keeps has that date component. -/
theorem heart_filter_spec (hr : List HeartRow) (d : Int)
    (hd : d ∈ hr.map (fun r => dateOf r.Time)) :
    hrFilter hr d ≠ [] ∧ ∀ r ∈ hrFilter hr d, dateOf r.Time = d := by
  constructor
  · rw [List.mem_map] at hd
    obtain ⟨r, hr0, hrd⟩ := hd
    intro hnil
    have hmem : r ∈ hrFilter hr d := by
      rw [hrFilter, List.mem_filter]
      exact ⟨hr0, by simpa using hrd⟩
    rw [hnil] at hmem
    exact List.not_mem_nil r hmem
  · intro r hrm
    rw [hrFilter, List.mem_filter] at hrm
    simpa using hrm.2

/-- Claim C5 witness: a one-sample table on day 5, filtered at day 5. -/
theorem heart_filter_spec_witness :
    hrFilter w5HR 5 ≠ [] ∧ dateOf w5Row.Time = 5 :=
  ⟨(heart_filter_spec w5HR 5 (by decide)).1,
   (heart_filter_spec w5HR 5 (by decide)).2 w5Row (by decide)⟩

/-! ### Claim C6 -/

/-- Claim C6: every row of the derived Sleep Day table has
SleepHours = TotalMinutesAsleep / 60, exactly (rationals are exact). -/
theorem sleep_hours_exact (s : List SleepRow) :
    ∀ rh ∈ deriveSleepHours s, rh.SleepHours = rh.TotalMinutesAsleep / 60 := by
  intro rh hm
  rw [deriveSleepHours, List.mem_map] at hm
  obtain ⟨r, _, rfl⟩ := hm
  rfl

/-- Claim C6 witness: a concrete 120-minute sleep row. -/
theorem sleep_hours_exact_witness :
    (addSleepHours ⟨0, 120⟩).SleepHours =
      (addSleepHours ⟨0, 120⟩).TotalMinutesAsleep / 60 :=
  sleep_hours_exact w6S (addSleepHours ⟨0, 120⟩) (by simp [deriveSleepHours, w6S])

/-! ### Claim C7 -/

/-- Claim C7 (amended): the Hourly Patterns grouping produces one bucket per
distinct Hour value present in the table (each in 0..23, and every hour that
occurs does get a bucket), carrying the arithmetic mean of StepTotal for that
hour's rows, in strictly increasing hour order.  (It is not always 24
buckets: hours with no rows produce no bucket, see the counterexample.) -/
theorem hourly_group_spec (hs : List HourlyRow) :
    List.Pairwise (· < ·) ((groupMeans hs).map Prod.fst) ∧
    (∀ r ∈ hs, hourOf r.ActivityHour < 24) ∧
    (∀ p ∈ groupMeans hs,
        (∃ r ∈ hs, hourOf r.ActivityHour = p.1) ∧
        p.2 = mean (stepsAtHour hs p.1)) ∧
    (∀ h : Nat, (∃ r ∈ hs, hourOf r.ActivityHour = h) →
        h ∈ (groupMeans hs).map Prod.fst) := by
  have hmap : (groupMeans hs).map Prod.fst =
      (List.range 24).filter
        (fun h => hs.any (fun r => decide (hourOf r.ActivityHour = h))) := by
    rw [groupMeans, List.map_map]
    simp [Function.comp_def]
  refine ⟨?_, fun r _ => hourOf_lt_24 _, ?_, ?_⟩
  · rw [hmap]
    exact List.Pairwise.sublist (List.filter_sublist _) (List.pairwise_lt_range 24)
  · intro p hp
    rw [groupMeans, List.mem_map] at hp
    obtain ⟨h, hh, rfl⟩ := hp
    rw [List.mem_filter] at hh
    refine ⟨?_, rfl⟩
    have h2 := hh.2
    rw [List.any_eq_true] at h2
    obtain ⟨r, hr, hrh⟩ := h2
    exact ⟨r, hr, by simpa using hrh⟩
  · intro h hex
    obtain ⟨r, hr, hrh⟩ := hex
    have h24 : h < 24 := hrh ▸ hourOf_lt_24 r.ActivityHour
    rw [hmap, List.mem_filter, List.mem_range]
    exact ⟨h24, List.any_eq_true.mpr ⟨r, hr, by simpa using hrh⟩⟩

/-- Claim C7 counterexample: a table whose single row falls in hour 5 yields
exactly one bucket (for hour 5), not 24 buckets covering hours 0 through
23. -/
theorem hourly_group_counterexample :
    (groupMeans c7HS).map Prod.fst = [5] ∧ ¬ (groupMeans c7HS).length = 24 := by
  constructor
  · decide
  · decide

/-- Claim C7 witness: an hour that occurs in the table does receive a
bucket. -/
theorem hourly_group_spec_witness :
    5 ∈ (groupMeans w7HS).map Prod.fst :=
  (hourly_group_spec w7HS).2.2.2 5 ⟨⟨3600 * 5 + 60, 300⟩, by decide, by decide⟩

/-! ### Claim C8 -/

/-- Claim C8: for any hour bucket with at least one row (equivalently, whose
StepTotal column has a minimum and a maximum), the bucket's mean StepTotal —
which is exactly the value the grouping attaches to that hour — lies in the
closed interval between that minimum and maximum. -/
theorem hourly_mean_in_bucket_range (hs : List HourlyRow) (h : Nat) (lo hi : ℚ)
    (hlo : (stepsAtHour hs h).min? = some lo)
    (hhi : (stepsAtHour hs h).max? = some hi) :
    lo ≤ mean (stepsAtHour hs h) ∧ mean (stepsAtHour hs h) ≤ hi ∧
    ∀ p ∈ groupMeans hs, p.1 = h → p.2 = mean (stepsAtHour hs h) := by
  obtain ⟨hmem, hbound⟩ := min?_spec hlo
  obtain ⟨hmem2, hbound2⟩ := max?_spec hhi
  have hne : stepsAtHour hs h ≠ [] := List.ne_nil_of_mem hmem
  refine ⟨le_mean_of_forall_le _ hne lo hbound,
          mean_le_of_forall_le _ hne hi hbound2, ?_⟩
  intro p hp hph
  rw [groupMeans, List.mem_map] at hp
  obtain ⟨h2, _, rfl⟩ := hp
  simp only at hph
  rw [hph]

/-- Claim C8 witness: the hour-2 bucket of a concrete table, whose minimum
and maximum are both 100. -/
theorem hourly_mean_in_bucket_range_witness :
    100 ≤ mean (stepsAtHour w8HS 2) ∧ mean (stepsAtHour w8HS 2) ≤ 100 :=
  ⟨(hourly_mean_in_bucket_range w8HS 2 100 100 (by decide) (by decide)).1,
   (hourly_mean_in_bucket_range w8HS 2 100 100 (by decide) (by decide)).2.1⟩

/-! ### Claim C9 -/

/-- Claim C9 (amended): a diagonal entry of the correlation matrix equals 1.0
whenever that metric's column has nonzero variance over the table's rows; a
zero-variance column (constant, or a table with fewer than two rows) gives
NaN on the diagonal instead, see the counterexample. -/
theorem corr_matrix_diag_one (da : List ActivityRow) (i : Fin 7)
    (hvar : centeredSq (da.map (activityCols.get i)) ≠ 0) :
    corrMatrix da i i = some 1 := by
  have h0 : (0:ℝ) ≤ ((centeredSq (da.map (activityCols.get i)) : ℚ) : ℝ) := by
    exact_mod_cast centeredSq_nonneg _
  have hmul : Real.sqrt ((centeredSq (da.map (activityCols.get i)) : ℚ) : ℝ) *
      Real.sqrt ((centeredSq (da.map (activityCols.get i)) : ℚ) : ℝ) =
      ((centeredSq (da.map (activityCols.get i)) : ℚ) : ℝ) :=
    Real.mul_self_sqrt h0
  have hne : ((centeredSq (da.map (activityCols.get i)) : ℚ) : ℝ) ≠ 0 := by
    exact_mod_cast hvar
  show corrEntry (da.map (activityCols.get i)) (da.map (activityCols.get i)) = some 1
  unfold corrEntry
  simp only [centeredProd_self]
  rw [hmul, if_neg hne, div_self hne]

/-- Claim C9 witness: the TotalSteps column of a two-row table with distinct
step counts correlates with itself at exactly 1. -/
theorem corr_matrix_diag_one_witness : corrMatrix w9DA 0 0 = some 1 := by
  apply corr_matrix_diag_one
  have hcol : w9DA.map (activityCols.get (0 : Fin 7)) = [(0:ℚ), 2] := rfl
  rw [hcol]
  have hm : mean [(0:ℚ), 2] = 1 := by
    norm_num [mean, List.sum_cons, List.sum_nil]
  norm_num [centeredSq, hm]

/-- Claim C9 counterexample: on a one-row Daily Activity table the diagonal
correlation entry is NaN (modelled as none), not 1.0 — the claim fails as
stated for tables with a zero-variance column. -/
theorem corr_matrix_diag_counterexample :
    corrMatrix c9DA 0 0 = none ∧ ¬ corrMatrix c9DA 0 0 = some 1 := by
  have hcol : c9DA.map (activityCols.get (0 : Fin 7)) = [(5:ℚ)] := rfl
  have hz : centeredSq [(5:ℚ)] = 0 := by
    have hm : mean [(5:ℚ)] = 5 := by
      norm_num [mean, List.sum_cons, List.sum_nil]
    norm_num [centeredSq, hm]
  have hnone : corrMatrix c9DA 0 0 = none := by
    show corrEntry (c9DA.map (activityCols.get (0 : Fin 7)))
      (c9DA.map (activityCols.get (0 : Fin 7))) = none
    rw [hcol]
    unfold corrEntry
    rw [hz]
    simp [Real.sqrt_zero]
  exact ⟨hnone, by rw [hnone]; simp⟩

/-! ### Claim C10 -/

/-- Claim C10: two loaded-table states that agree on Daily Activity, Sleep
Day, Heart Rate, Hourly Steps and Weight Log — i.e. differ at most in Daily
Calories, Daily Intensities and Daily Steps — render identically for every
navigation selection and heart-rate date selection: those three tables are
never read by any view renderer. -/
theorem unused_tables_no_influence (t1 t2 : Tables) (menu : Menu) (hd : Int)
    (hA : t1.daily_activity = t2.daily_activity)
    (hS : t1.sleep_day = t2.sleep_day)
    (hH : t1.heartrate = t2.heartrate)
    (hHS : t1.hourly_steps = t2.hourly_steps)
    (hW : t1.weight = t2.weight) :
    render t1 menu hd = render t2 menu hd := by
  cases menu <;> simp only [render, hA, hS, hH, hHS, hW]

/-- Claim C10 witness: concrete table states differing exactly in the three
unread tables render identically. -/
theorem unused_tables_no_influence_witness :
    render w10a Menu.dailyActivity 0 = render w10b Menu.dailyActivity 0 :=
  unused_tables_no_influence w10a w10b Menu.dailyActivity 0 rfl rfl rfl rfl rfl

end Newscript
